import Mathlib

/-!
Shallow embedding of `src/tunnel_vision/main_cli.py` (namuan/tunnel-vision):
a macOS screen-overlay widget with a draggable, resizable focus rectangle
and timer-driven synthetic scroll injection.  Coordinates and sizes are
machine integers in the source (QRect stores `int`s, Python ints are
unbounded); we model them as `Int`.
-/

namespace TunnelVision

/-- A point, modelling Qt's `QPoint` (integer coordinates). -/
structure Point where
  x : Int
  y : Int
  deriving DecidableEq, Repr

/-- An axis-aligned rectangle, modelling Qt's `QRect(x, y, width, height)`. -/
structure Rect where
  x : Int
  y : Int
  width : Int
  height : Int
  deriving DecidableEq, Repr

/-- The five drag anchors, the keys of the `corners` dict built identically at
`paintEvent`, `mouseMoveEvent` and `mousePressEvent` (insertion order:
top-left, top-right, bottom-left, bottom-right, top-middle). -/
inductive Corner
  | topLeft
  | topRight
  | bottomLeft
  | bottomRight
  | topMiddle
  deriving DecidableEq, Repr

/-- Python `"left" in corner` on the five corner-name strings. -/
def hasLeft : Corner → Bool
  | .topLeft => true
  | .bottomLeft => true
  | _ => false

/-- Python `"right" in corner` on the five corner-name strings. -/
def hasRight : Corner → Bool
  | .topRight => true
  | .bottomRight => true
  | _ => false

/-- Python `"top" in corner` on the five corner-name strings
(note `"top" in "top-middle"` is `True`; that branch is unreachable for
`top-middle` because `_update_rect_dimensions` returns earlier for it). -/
def hasTop : Corner → Bool
  | .topLeft => true
  | .topRight => true
  | .topMiddle => true
  | _ => false

/-- Python `"bottom" in corner` on the five corner-name strings. -/
def hasBottom : Corner → Bool
  | .bottomLeft => true
  | .bottomRight => true
  | _ => false

/-- `min_width` from `_update_rect_dimensions` (line 167). -/
def min_width : Int := 100

/-- `min_height` from `_update_rect_dimensions` (line 167). -/
def min_height : Int := 100

/-- Embedding of `FocusOverlayWidget._update_rect_dimensions(rect, dx, dy, corner)`
(main_cli.py lines 165-199).  The `new_dims` dict starts as a copy of `rect`;
the `top-middle` anchor translates, the other anchors move the edges named by
the anchor, then width/height are clamped to the minimum, the clamp recomputing
`x` (resp. `y`) from the ORIGINAL rect when the anchor contains "left"
(resp. "top"). -/
def updateRectDimensions (rect : Rect) (dx dy : Int) (corner : Corner) : Rect :=
  if corner = Corner.topMiddle then
    { rect with x := rect.x + dx, y := rect.y + dy }
  else
    let x0 := if hasLeft corner then rect.x + dx else rect.x
    let w0 :=
      if hasLeft corner then rect.width - dx
      else if hasRight corner then rect.width + dx
      else rect.width
    let y0 := if hasTop corner then rect.y + dy else rect.y
    let h0 :=
      if hasTop corner then rect.height - dy
      else if hasBottom corner then rect.height + dy
      else rect.height
    let x1 :=
      if w0 < min_width then
        if hasLeft corner then rect.x + (rect.width - min_width) else x0
      else x0
    let w1 := if w0 < min_width then min_width else w0
    let y1 :=
      if h0 < min_height then
        if hasTop corner then rect.y + (rect.height - min_height) else y0
      else y0
    let h1 := if h0 < min_height then min_height else h0
    { x := x1, y := y1, width := w1, height := h1 }

/-- `self.hit_threshold = 14` (line 67): pixel box around each anchor that is
sensitive to dragging / cursor feedback. -/
def hit_threshold : Int := 14

/-- The anchor points of the `corners` dict (lines 130-136, 220-226, 240-246),
with Qt's historical `QRect` semantics: `topRight` is `(x + width - 1, y)`,
`bottomLeft` is `(x, y + height - 1)`, and `center().x()` is
`(x + (x + width - 1)) div 2` with C-style truncating division. -/
def anchorPoint (r : Rect) : Corner → Point
  | .topLeft => ⟨r.x, r.y⟩
  | .topRight => ⟨r.x + r.width - 1, r.y⟩
  | .bottomLeft => ⟨r.x, r.y + r.height - 1⟩
  | .bottomRight => ⟨r.x + r.width - 1, r.y + r.height - 1⟩
  | .topMiddle => ⟨Int.tdiv (r.x + (r.x + r.width - 1)) 2, r.y⟩

/-- The per-anchor hit condition of lines 229 and 249:
`abs(point.x() - pos.x()) <= self.hit_threshold and abs(point.y() - pos.y()) <= self.hit_threshold`. -/
def nearAnchor (r : Rect) (p : Point) (c : Corner) : Prop :=
  |(anchorPoint r c).x - p.x| ≤ hit_threshold ∧ |(anchorPoint r c).y - p.y| ≤ hit_threshold

instance (r : Rect) (p : Point) (c : Corner) : Decidable (nearAnchor r p c) := by
  unfold nearAnchor; infer_instance

/-- The anchor search loop of `mousePressEvent` (lines 248-258) and
`mouseMoveEvent` (lines 228-233): iterate the `corners` dict in insertion
order, return the first anchor whose hit condition holds, else none
(the `for`/`else` falls through). -/
def hitTest (r : Rect) (p : Point) : Option Corner :=
  if nearAnchor r p Corner.topLeft then some Corner.topLeft
  else if nearAnchor r p Corner.topRight then some Corner.topRight
  else if nearAnchor r p Corner.bottomLeft then some Corner.bottomLeft
  else if nearAnchor r p Corner.bottomRight then some Corner.bottomRight
  else if nearAnchor r p Corner.topMiddle then some Corner.topMiddle
  else none

/-! ## Scroll state and timer -/

/-- `self.scroll_interval = 10000` milliseconds (line 76). -/
def scroll_interval : Int := 10000

/-- `self.smooth_scroll_steps = 50` (line 77). -/
def smooth_scroll_steps : Nat := 50

/-- The scroll-related mutable state of `FocusOverlayWidget`:
`auto_scrolling` (line 71), whether `smooth_scroll_timer` is active and its
interval (lines 73-74, 275-276, 279), the focus-area sub-window's
`WA_TransparentForMouseEvents` attribute (lines 37, 269, 282),
`scroll_speed` (line 75) and `current_smooth_step` (line 78). -/
structure ScrollState where
  auto_scrolling : Bool
  timerActive : Bool
  focusAreaTransparent : Bool
  scroll_speed : Int
  current_smooth_step : Nat
  timerInterval : Int
  deriving DecidableEq, Repr

/-- The state right after `__init__` (lines 71-78; the sub-window attribute is
set `False` at line 37; a fresh `QTimer` is stopped with interval 0). -/
def initialScrollState : ScrollState :=
  { auto_scrolling := false
    timerActive := false
    focusAreaTransparent := false
    scroll_speed := -1
    current_smooth_step := 0
    timerInterval := 0 }

/-- Embedding of `FocusOverlayWidget.toggle_auto_scroll` (lines 260-284).
It flips `auto_scrolling` unconditionally; when the new value is true it makes
the focus area click-through, resets the step counter and starts the timer at
`int(scroll_interval / smooth_scroll_steps)` ms; when false it stops the timer
and makes the focus area capture clicks again.  It never consults
`MACOS_MODULES_AVAILABLE`. -/
def toggle_auto_scroll (s : ScrollState) : ScrollState :=
  let auto := !s.auto_scrolling
  if auto then
    { s with
      auto_scrolling := auto
      focusAreaTransparent := true
      current_smooth_step := 0
      timerActive := true
      timerInterval := Int.tdiv scroll_interval (Int.ofNat smooth_scroll_steps) }
  else
    { s with
      auto_scrolling := auto
      timerActive := false
      focusAreaTransparent := false }

/-- Outcome of the `try` block of `perform_smooth_scroll`: the CoreGraphics
calls either succeed or raise an exception. -/
inductive InjectOutcome
  | ok
  | raises
  deriving DecidableEq, Repr

/-- Observable result of one timer tick: the new state, the list of scroll
deltas posted to the OS input stream (`CGEventPost`), and whether
`logging.warning` was invoked. -/
structure TickResult where
  state : ScrollState
  events : List Int
  warned : Bool
  deriving DecidableEq, Repr

/-- Embedding of `FocusOverlayWidget.perform_smooth_scroll` (lines 286-316),
parameterised by `avail = MACOS_MODULES_AVAILABLE` and by whether the
CoreGraphics calls raise.  Guard (lines 288-290): if not auto-scrolling or
modules unavailable, stop the timer and return.  Otherwise post one scroll
event of `pixels_per_step = abs(scroll_speed) * 1` pixels, positive iff
`scroll_speed > 0`, then increment the step counter, resetting it to 0 once it
reaches `smooth_scroll_steps`.  On exception: log a warning and stop the
timer — `auto_scrolling` is NOT touched. -/
def perform_smooth_scroll (s : ScrollState) (avail : Bool) (outcome : InjectOutcome) :
    TickResult :=
  if !s.auto_scrolling || !avail then
    { state := { s with timerActive := false }, events := [], warned := false }
  else
    match outcome with
    | .raises => { state := { s with timerActive := false }, events := [], warned := true }
    | .ok =>
        let pixels_per_step := |s.scroll_speed| * 1
        let delta := if s.scroll_speed > 0 then pixels_per_step else -pixels_per_step
        let step0 := s.current_smooth_step + 1
        let step1 := if step0 ≥ smooth_scroll_steps then 0 else step0
        { state := { s with current_smooth_step := step1 }, events := [delta], warned := false }

/-- The merged shortcut/status lines of `paintEvent` (lines 146-152). -/
def info_display (s : ScrollState) (always_on_top : Bool) : List String :=
  [ "ESC: Exit",
    "SPACE: Scroll Direction [" ++ (if s.scroll_speed < 0 then "DOWN" else "UP") ++ "]",
    "+/-: Scroll Speed [" ++ toString s.scroll_speed.natAbs ++ "]",
    "S: Auto-Scroll [" ++ (if s.auto_scrolling then "ON" else "OFF") ++ "]",
    "T: Always on Top [" ++ (if always_on_top then "ON" else "OFF") ++ "]" ]

/-! ## Keyboard commands -/

/-- `self.scroll_speed = -self.scroll_speed` — the Space branch of
`keyPressEvent` (lines 338-342). -/
def flipDirection (speed : Int) : Int := -speed

/-- The Plus/Equal branch of `keyPressEvent` (lines 360-365):
`speed += 1` when positive, else `speed -= 1`. -/
def increaseSpeed (speed : Int) : Int :=
  if speed > 0 then speed + 1 else speed - 1

/-- The Minus branch of `keyPressEvent` (lines 367-372):
`max(1, speed - 1)` when positive, else `min(-1, speed + 1)`. -/
def decreaseSpeed (speed : Int) : Int :=
  if speed > 0 then max 1 (speed - 1) else min (-1) (speed + 1)

/-- Keys handled by `keyPressEvent` (lines 331-372). -/
inductive Key
  | escape
  | space
  | t
  | s
  | plus
  | equal
  | minus
  | other
  deriving DecidableEq, Repr

/-- Widget state visible to `keyPressEvent`: scroll state, the
`always_on_top` flag (lines 52, 345-353) and whether `close()` was called. -/
structure WidgetState where
  scroll : ScrollState
  always_on_top : Bool
  closed : Bool
  deriving DecidableEq, Repr

/-- Embedding of `FocusOverlayWidget.keyPressEvent` (lines 331-372). -/
def keyPressEvent (w : WidgetState) (k : Key) : WidgetState :=
  match k with
  | .escape => { w with closed := true }
  | .space =>
      { w with scroll := { w.scroll with scroll_speed := flipDirection w.scroll.scroll_speed } }
  | .t => { w with always_on_top := !w.always_on_top }
  | .s => { w with scroll := toggle_auto_scroll w.scroll }
  | .plus =>
      { w with scroll := { w.scroll with scroll_speed := increaseSpeed w.scroll.scroll_speed } }
  | .equal =>
      { w with scroll := { w.scroll with scroll_speed := increaseSpeed w.scroll.scroll_speed } }
  | .minus =>
      { w with scroll := { w.scroll with scroll_speed := decreaseSpeed w.scroll.scroll_speed } }
  | .other => w

/-! ## Mouse drag state machine -/

/-- The dragging-related mutable state of `FocusOverlayWidget`
(lines 57, 61-64). -/
structure OverlayMouseState where
  focus_rect : Rect
  dragging : Bool
  drag_corner : Option Corner
  drag_start_pos : Point
  original_rect : Rect
  deriving DecidableEq, Repr

/-- Embedding of `FocusOverlayWidget.mousePressEvent` (lines 235-258): on a
hit, start a drag, remembering the anchor, the press position and a snapshot
of the current focus rectangle. -/
def mousePressEvent (st : OverlayMouseState) (pos : Point) : OverlayMouseState :=
  match hitTest st.focus_rect pos with
  | some c =>
      { st with
        dragging := true
        drag_corner := some c
        drag_start_pos := pos
        original_rect := st.focus_rect }
  | none => st

/-- Embedding of the dragging branch of `FocusOverlayWidget.mouseMoveEvent`
(lines 210-218): while dragging, the focus rectangle is recomputed from the
`original_rect` snapshot, the drag anchor and the net displacement from
`drag_start_pos`.  (The non-dragging branch only changes the cursor shape.)
`drag_corner` is always `some _` while `dragging` holds. -/
def mouseMoveEvent (st : OverlayMouseState) (pos : Point) : OverlayMouseState :=
  if st.dragging then
    match st.drag_corner with
    | some c =>
        { st with
          focus_rect :=
            updateRectDimensions st.original_rect
              (pos.x - st.drag_start_pos.x) (pos.y - st.drag_start_pos.y) c }
    | none => st
  else st

/-- Embedding of `FocusOverlayWidget.mouseReleaseEvent` (lines 318-329). -/
def mouseReleaseEvent (st : OverlayMouseState) : OverlayMouseState :=
  if st.dragging then { st with dragging := false, drag_corner := none } else st

/-- Applying a sequence of pointer-move events in order. -/
def runMoves (st : OverlayMouseState) (moves : List Point) : OverlayMouseState :=
  moves.foldl mouseMoveEvent st

/-- The scroll state right after one S keypress from the initial state:
auto-scrolling with the timer running. -/
def scrollingState : ScrollState := toggle_auto_scroll initialScrollState

/-- The scroll state left behind when, while auto-scrolling, a tick's
CoreGraphics call raises: the timer is stopped but `auto_scrolling` is
still true. -/
def postFailureState : ScrollState :=
  (perform_smooth_scroll scrollingState true InjectOutcome.raises).state

/-- A concrete mid-drag widget state: dragging the bottom-right anchor of a
200×300 rectangle at the origin, the pointer pressed on that anchor. -/
def dragState0 : OverlayMouseState :=
  { focus_rect := ⟨0, 0, 200, 300⟩
    dragging := true
    drag_corner := some Corner.bottomRight
    drag_start_pos := ⟨199, 299⟩
    original_rect := ⟨0, 0, 200, 300⟩ }

/-! ## Theorems -/

/-- C3: for every starting rectangle with width and height at least 100, every
anchor (the four corners and top-middle) and every integer displacement
(dx, dy), the rectangle produced by `_update_rect_dimensions` has width ≥ 100
and height ≥ 100. -/
theorem C3_resize_preserves_min_dimensions (r : Rect) (dx dy : Int) (c : Corner)
    (hw : 100 ≤ r.width) (hh : 100 ≤ r.height) :
    100 ≤ (updateRectDimensions r dx dy c).width ∧
      100 ≤ (updateRectDimensions r dx dy c).height := by
  cases c <;>
    simp only [updateRectDimensions, hasLeft, hasRight, hasTop, hasBottom, min_width,
      min_height, reduceCtorEq, if_false, if_true, Bool.false_eq_true, ite_true, ite_false] <;>
    (try split_ifs) <;> omega

/-- Witness for C3 at the spec's clamped example. -/
theorem C3_resize_preserves_min_dimensions_witness :
    100 ≤ (updateRectDimensions ⟨200, 150, 800, 500⟩ 750 450 Corner.topLeft).width ∧
      100 ≤ (updateRectDimensions ⟨200, 150, 800, 500⟩ 750 450 Corner.topLeft).height :=
  C3_resize_preserves_min_dimensions ⟨200, 150, 800, 500⟩ 750 450 Corner.topLeft
    (by decide) (by decide)

/-- C4: for every starting rectangle and every displacement, resizing from a
corner anchor leaves the opposite edges unchanged, also when the minimum-size
clamp fires: top-left preserves the right edge `x + width` and the bottom edge
`y + height`; bottom-right preserves `x` and `y`; top-right preserves `x` and
`y + height`; bottom-left preserves `x + width` and `y`. -/
theorem C4_opposite_edges_unchanged (r : Rect) (dx dy : Int) :
    ((updateRectDimensions r dx dy Corner.topLeft).x +
        (updateRectDimensions r dx dy Corner.topLeft).width = r.x + r.width ∧
      (updateRectDimensions r dx dy Corner.topLeft).y +
        (updateRectDimensions r dx dy Corner.topLeft).height = r.y + r.height) ∧
    ((updateRectDimensions r dx dy Corner.bottomRight).x = r.x ∧
      (updateRectDimensions r dx dy Corner.bottomRight).y = r.y) ∧
    ((updateRectDimensions r dx dy Corner.topRight).x = r.x ∧
      (updateRectDimensions r dx dy Corner.topRight).y +
        (updateRectDimensions r dx dy Corner.topRight).height = r.y + r.height) ∧
    ((updateRectDimensions r dx dy Corner.bottomLeft).x +
        (updateRectDimensions r dx dy Corner.bottomLeft).width = r.x + r.width ∧
      (updateRectDimensions r dx dy Corner.bottomLeft).y = r.y) := by
  refine ⟨⟨?_, ?_⟩, ⟨?_, ?_⟩, ⟨?_, ?_⟩, ⟨?_, ?_⟩⟩ <;>
    simp only [updateRectDimensions, hasLeft, hasRight, hasTop, hasBottom, min_width,
      min_height, reduceCtorEq, if_false, if_true, Bool.false_eq_true, ite_true, ite_false] <;>
    (try split_ifs) <;> omega

/-- C5: the resize computation reproduces the spec's worked examples: from
(200,150,800,500), dragging bottom-right by (50,-30) yields (200,150,850,470)
and dragging top-left by (750,450) yields the clamped (900,550,100,100). -/
theorem C5_worked_examples :
    updateRectDimensions ⟨200, 150, 800, 500⟩ 50 (-30) Corner.bottomRight =
        ⟨200, 150, 850, 470⟩ ∧
      updateRectDimensions ⟨200, 150, 800, 500⟩ 750 450 Corner.topLeft =
        ⟨900, 550, 100, 100⟩ := by
  decide

/-- C6: the hit-test returns an anchor exactly when the pointer is within the
fixed 14-pixel per-axis threshold of that anchor's point and no
earlier anchor in the fixed enumeration order (top-left, top-right,
bottom-left, bottom-right, top-middle) is within threshold; it returns none
exactly when no anchor is within threshold.  No distance comparison across
anchors takes place: the first match wins. -/
theorem C6_hit_test_first_match (r : Rect) (p : Point) :
    hit_threshold = 14 ∧
    (hitTest r p = some Corner.topLeft ↔ nearAnchor r p Corner.topLeft) ∧
    (hitTest r p = some Corner.topRight ↔
      ¬nearAnchor r p Corner.topLeft ∧ nearAnchor r p Corner.topRight) ∧
    (hitTest r p = some Corner.bottomLeft ↔
      ¬nearAnchor r p Corner.topLeft ∧ ¬nearAnchor r p Corner.topRight ∧
        nearAnchor r p Corner.bottomLeft) ∧
    (hitTest r p = some Corner.bottomRight ↔
      ¬nearAnchor r p Corner.topLeft ∧ ¬nearAnchor r p Corner.topRight ∧
        ¬nearAnchor r p Corner.bottomLeft ∧ nearAnchor r p Corner.bottomRight) ∧
    (hitTest r p = some Corner.topMiddle ↔
      ¬nearAnchor r p Corner.topLeft ∧ ¬nearAnchor r p Corner.topRight ∧
        ¬nearAnchor r p Corner.bottomLeft ∧ ¬nearAnchor r p Corner.bottomRight ∧
          nearAnchor r p Corner.topMiddle) ∧
    (hitTest r p = none ↔ ∀ c : Corner, ¬nearAnchor r p c) := by
  refine ⟨rfl, ?_, ?_, ?_, ?_, ?_, ?_⟩
  · unfold hitTest; split_ifs <;> simp_all
  · unfold hitTest; split_ifs <;> simp_all
  · unfold hitTest; split_ifs <;> simp_all
  · unfold hitTest; split_ifs <;> simp_all
  · unfold hitTest; split_ifs <;> simp_all
  · unfold hitTest
    constructor
    · intro hnone c
      cases c <;> split_ifs at hnone <;> simp_all
    · intro hall
      split_ifs with h1 h2 h3 h4 h5
      · exact absurd h1 (hall _)
      · exact absurd h2 (hall _)
      · exact absurd h3 (hall _)
      · exact absurd h4 (hall _)
      · exact absurd h5 (hall _)
      · rfl

/-- C7: on every nonzero speed, the Plus/Equal command raises the absolute
value by 1 and keeps the sign; the Minus command lowers the absolute value by
1 but never below 1 and keeps the sign; Space negates the speed, keeping its
magnitude; and from speed -1, one flip gives 1 and a subsequent increase
gives 2. -/
theorem C7_speed_commands (s : Int) (_h : s ≠ 0) :
    (increaseSpeed s).natAbs = s.natAbs + 1 ∧
    (0 < s → 0 < increaseSpeed s) ∧
    (s < 0 → increaseSpeed s < 0) ∧
    (decreaseSpeed s).natAbs = max (s.natAbs - 1) 1 ∧
    (0 < s → 0 < decreaseSpeed s) ∧
    (s < 0 → decreaseSpeed s < 0) ∧
    flipDirection s = -s ∧
    (flipDirection s).natAbs = s.natAbs ∧
    flipDirection (-1) = 1 ∧
    increaseSpeed (flipDirection (-1)) = 2 := by
  unfold increaseSpeed decreaseSpeed flipDirection
  split_ifs <;> refine ⟨?_, ?_, ?_, ?_, ?_, ?_, ?_, ?_, ?_, ?_⟩ <;> omega

/-- Witness for C7 at the spec's example speed -1. -/
theorem C7_speed_commands_witness :
    increaseSpeed (flipDirection (-1)) = 2 :=
  (C7_speed_commands (-1) (by decide)).2.2.2.2.2.2.2.2.2

/-- The scroll delta posted by a successful tick equals the signed speed:
`abs(speed) * 1` pixels, negated unless `speed > 0`. -/
lemma scroll_delta_eq (v : Int) : (if 0 < v then |v| else -|v|) = v := by
  split_ifs with h
  · exact abs_of_pos h
  · rw [abs_of_nonpos (le_of_not_lt h)]
    ring

/-- C9: while auto-scroll is on and injection is available, a tick posts
exactly one scroll event, of magnitude `|scroll_speed|` pixels and direction
the sign of `scroll_speed` (i.e. the delta is `scroll_speed` itself), then
increments the step counter modulo `smooth_scroll_steps = 50`; and the toggle
that enables scrolling starts the timer with period
`scroll_interval / smooth_scroll_steps = 10000 / 50 = 200` ms. -/
theorem C9_tick_emits_one_event (s : ScrollState)
    (hauto : s.auto_scrolling = true)
    (hstep : s.current_smooth_step < smooth_scroll_steps) :
    (perform_smooth_scroll s true InjectOutcome.ok).events = [s.scroll_speed] ∧
    (∀ d ∈ (perform_smooth_scroll s true InjectOutcome.ok).events,
      d.natAbs = s.scroll_speed.natAbs ∧ d.sign = s.scroll_speed.sign) ∧
    (perform_smooth_scroll s true InjectOutcome.ok).state.current_smooth_step =
      (s.current_smooth_step + 1) % smooth_scroll_steps ∧
    (∀ t : ScrollState, t.auto_scrolling = false →
      (toggle_auto_scroll t).timerActive = true ∧
      (toggle_auto_scroll t).timerInterval =
        Int.tdiv scroll_interval (Int.ofNat smooth_scroll_steps)) ∧
    Int.tdiv scroll_interval (Int.ofNat smooth_scroll_steps) = 200 := by
  refine ⟨?_, ?_, ?_, ?_, by decide⟩
  · simp [perform_smooth_scroll, hauto, scroll_delta_eq]
  · simp [perform_smooth_scroll, hauto, scroll_delta_eq]
  · simp only [perform_smooth_scroll, hauto, Bool.not_true, Bool.false_or, Bool.not_false,
      Bool.false_eq_true, if_false, ite_false]
    simp only [smooth_scroll_steps] at *
    split_ifs <;> omega
  · intro t ht
    simp [toggle_auto_scroll, ht]

/-- Witness for C9 one tick after enabling auto-scroll from the initial
state. -/
theorem C9_tick_emits_one_event_witness :
    (perform_smooth_scroll scrollingState true InjectOutcome.ok).events = [(-1 : Int)] ∧
      (perform_smooth_scroll scrollingState true InjectOutcome.ok).state.current_smooth_step =
        1 := by
  have h := C9_tick_emits_one_event scrollingState (by decide) (by decide)
  exact ⟨h.1, h.2.2.1⟩

/-- Resizing with zero displacement returns the original rectangle, provided
it satisfies the minimum dimensions (so the clamp cannot fire). -/
lemma updateRect_zero (r : Rect) (c : Corner)
    (hw : 100 ≤ r.width) (hh : 100 ≤ r.height) :
    updateRectDimensions r 0 0 c = r := by
  obtain ⟨x, y, w, h⟩ := r
  simp only [Rect.mk.injEq] at hw hh ⊢
  cases c <;>
    simp only [updateRectDimensions, hasLeft, hasRight, hasTop, hasBottom, min_width,
      min_height, reduceCtorEq, if_false, if_true, ite_true, ite_false, Bool.false_eq_true,
      sub_zero, add_zero, Rect.mk.injEq] <;>
    (try split_ifs) <;> omega

/-- A pointer move changes only `focus_rect`; the drag bookkeeping fields are
untouched. -/
lemma mouseMove_preserves_drag_fields (st : OverlayMouseState) (pos : Point) :
    (mouseMoveEvent st pos).dragging = st.dragging ∧
    (mouseMoveEvent st pos).drag_corner = st.drag_corner ∧
    (mouseMoveEvent st pos).drag_start_pos = st.drag_start_pos ∧
    (mouseMoveEvent st pos).original_rect = st.original_rect := by
  unfold mouseMoveEvent
  split_ifs with hd
  · rcases hcor : st.drag_corner with _ | c <;> simp [hcor]
  · simp

/-- While dragging anchor `c`, the focus rectangle after any move sequence
ending at `p` is determined by the drag-start snapshot, the anchor and the
net displacement of `p` alone. -/
lemma runMoves_append_last (st : OverlayMouseState) (c : Corner)
    (hd : st.dragging = true) (hc : st.drag_corner = some c)
    (moves : List Point) (p : Point) :
    (runMoves st (moves ++ [p])).focus_rect =
      updateRectDimensions st.original_rect (p.x - st.drag_start_pos.x)
        (p.y - st.drag_start_pos.y) c := by
  induction moves generalizing st with
  | nil => simp [runMoves, mouseMoveEvent, hd, hc]
  | cons q qs ih =>
      have hpres := mouseMove_preserves_drag_fields st q
      simp only [runMoves, List.cons_append, List.foldl_cons] at ih ⊢
      rw [ih (mouseMoveEvent st q) (by rw [hpres.1]; exact hd)
        (by rw [hpres.2.1]; exact hc), hpres.2.2.1, hpres.2.2.2]

/-- C10: during a drag of anchor `c`, the focus rectangle after each pointer
move depends only on the rectangle snapshot taken at drag start, the dragged
anchor, and the net displacement from the drag-start position — not on the
intermediate path; in particular any move sequence (e.g. one shrinking a
dimension below the minimum) followed by a move back to the drag-start
position restores the exact original rectangle. -/
theorem C10_drag_path_independence (st : OverlayMouseState) (c : Corner)
    (hd : st.dragging = true) (hc : st.drag_corner = some c)
    (hw : 100 ≤ st.original_rect.width) (hh : 100 ≤ st.original_rect.height)
    (moves : List Point) (p : Point) :
    (runMoves st (moves ++ [p])).focus_rect =
      updateRectDimensions st.original_rect (p.x - st.drag_start_pos.x)
        (p.y - st.drag_start_pos.y) c ∧
    (runMoves st (moves ++ [st.drag_start_pos])).focus_rect = st.original_rect := by
  refine ⟨runMoves_append_last st c hd hc moves p, ?_⟩
  rw [runMoves_append_last st c hd hc moves st.drag_start_pos]
  simp only [sub_self]
  exact updateRect_zero st.original_rect c hw hh

/-- Witness for C10: dragging bottom-right far past the minimum and then back
to the press position restores the 200×300 rectangle exactly. -/
theorem C10_drag_path_independence_witness :
    (runMoves dragState0 ([(⟨-500, -500⟩ : Point)] ++ [(⟨199, 299⟩ : Point)])).focus_rect =
      ⟨0, 0, 200, 300⟩ :=
  (C10_drag_path_independence dragState0 Corner.bottomRight (by decide) (by decide)
    (by decide) (by decide) [⟨-500, -500⟩] ⟨-500, -500⟩).2

/-- C1 counterexample: start auto-scroll from the initial state, then let the
injection raise on a tick.  The warning is logged and the timer halts, but
`auto_scrolling` is NOT reverted to false, and the status lines still report
auto-scroll as ON — refuting the claim that the state reverts to IDLE. -/
theorem C1_counterexample :
    (perform_smooth_scroll scrollingState true InjectOutcome.raises).warned = true ∧
    (perform_smooth_scroll scrollingState true InjectOutcome.raises).state.timerActive =
      false ∧
    (perform_smooth_scroll scrollingState true InjectOutcome.raises).state.auto_scrolling =
      true ∧
    info_display (perform_smooth_scroll scrollingState true InjectOutcome.raises).state
        true =
      ["ESC: Exit", "SPACE: Scroll Direction [DOWN]", "+/-: Scroll Speed [1]",
        "S: Auto-Scroll [ON]", "T: Always on Top [ON]"] := by
  decide

/-- C1 amended: when a tick's injection raises while auto-scrolling, the code
logs a warning, posts no event and halts the timer, but leaves
`auto_scrolling` true, so the status lines go on reporting auto-scroll as ON
while the timer is stopped. -/
theorem C1_failure_halts_timer_keeps_flag (s : ScrollState) (aot : Bool)
    (h : s.auto_scrolling = true) :
    (perform_smooth_scroll s true InjectOutcome.raises).warned = true ∧
    (perform_smooth_scroll s true InjectOutcome.raises).events = [] ∧
    (perform_smooth_scroll s true InjectOutcome.raises).state.timerActive = false ∧
    (perform_smooth_scroll s true InjectOutcome.raises).state.auto_scrolling = true ∧
    "S: Auto-Scroll [ON]" ∈
      info_display (perform_smooth_scroll s true InjectOutcome.raises).state aot := by
  refine ⟨?_, ?_, ?_, ?_, ?_⟩ <;> simp [perform_smooth_scroll, info_display, h]

/-- Witness for the amended C1 at the concrete post-toggle state. -/
theorem C1_failure_halts_timer_keeps_flag_witness :
    (perform_smooth_scroll scrollingState true InjectOutcome.raises).state.auto_scrolling =
      true :=
  (C1_failure_halts_timer_keeps_flag scrollingState true (by decide)).2.2.2.1

/-- C2 counterexample: `toggle_auto_scroll` never consults
`MACOS_MODULES_AVAILABLE` (it is not a parameter of the embedded function
because lines 260-284 never read it), so even with the macOS modules missing
the toggle sets `auto_scrolling` to true and starts the timer — refuting the
claim that the scrolling state stays IDLE after the toggle. -/
theorem C2_counterexample :
    (toggle_auto_scroll initialScrollState).auto_scrolling = true ∧
    (toggle_auto_scroll initialScrollState).timerActive = true := by
  decide

/-- C2 amended: with the macOS modules unavailable, the toggle still flips
`auto_scrolling` to true and starts the timer; the timer then stops itself on
the next tick without posting any event (and without logging a warning). -/
theorem C2_toggle_ignores_availability (s t : ScrollState) (o : InjectOutcome)
    (h : s.auto_scrolling = false) :
    (toggle_auto_scroll s).auto_scrolling = true ∧
    (toggle_auto_scroll s).timerActive = true ∧
    (perform_smooth_scroll t false o).events = [] ∧
    (perform_smooth_scroll t false o).state.timerActive = false ∧
    (perform_smooth_scroll t false o).warned = false := by
  refine ⟨?_, ?_, ?_, ?_, ?_⟩ <;>
    simp [toggle_auto_scroll, perform_smooth_scroll, h]

/-- Witness for the amended C2 at the initial state. -/
theorem C2_toggle_ignores_availability_witness :
    (toggle_auto_scroll initialScrollState).timerActive = true :=
  (C2_toggle_ignores_availability initialScrollState initialScrollState InjectOutcome.ok
    (by decide)).2.1

/-- C8 counterexample: from the reachable state left by an injection failure
(`auto_scrolling` true, timer stopped), toggling auto-scroll twice does NOT
restore the timer-running state: it ends up running. -/
theorem C8_counterexample :
    postFailureState.auto_scrolling = true ∧
    postFailureState.timerActive = false ∧
    (toggle_auto_scroll (toggle_auto_scroll postFailureState)).timerActive = true := by
  decide

/-- C8 amended: toggling twice restores `auto_scrolling` from any state, and
restores the timer-running flag (resp. the click-through attribute) from any
state in which that flag agreed with `auto_scrolling` beforehand — which is
every state except those left by a scroll-injection failure. -/
theorem C8_double_toggle_restores (s : ScrollState) :
    (toggle_auto_scroll (toggle_auto_scroll s)).auto_scrolling = s.auto_scrolling ∧
    (s.timerActive = s.auto_scrolling →
      (toggle_auto_scroll (toggle_auto_scroll s)).timerActive = s.timerActive) ∧
    (s.focusAreaTransparent = s.auto_scrolling →
      (toggle_auto_scroll (toggle_auto_scroll s)).focusAreaTransparent =
        s.focusAreaTransparent) := by
  refine ⟨?_, ?_, ?_⟩ <;> cases hauto : s.auto_scrolling <;>
    simp [toggle_auto_scroll, hauto]

/-- Witness for the amended C8: the auto-scrolling flag round-trips even from
the post-failure state, and the timer round-trips from the post-toggle
scrolling state, where it agrees with the flag. -/
theorem C8_double_toggle_restores_witness :
    (toggle_auto_scroll (toggle_auto_scroll postFailureState)).auto_scrolling = true ∧
      (toggle_auto_scroll (toggle_auto_scroll scrollingState)).timerActive = true :=
  ⟨(C8_double_toggle_restores postFailureState).1,
    (C8_double_toggle_restores scrollingState).2.1 (by decide)⟩

end TunnelVision
